import Mathlib

/-!
Verification development for the `malicious-url-detector` repository.

The Python sources under `backend/app` are shallowly embedded here:

* `backend/app/utils/validators.py`   → section `Validators`
* `backend/app/models/url_features.py`→ section `UrlFeatures`
* `backend/app/services/api_checker.py` (summary part) → section `ApiChecker`
* `backend/app/services/scorer.py`    → section `Scorer`
* `backend/app/main.py` (`scan_url`)  → section `Pipeline`

Strings from the Python code are modelled as `List Char`; Python `float`
arithmetic is modelled exactly over `ℚ` except for the Shannon-entropy
features, which are modelled over `ℝ` (they involve `log₂`).  Behaviour of
the Python standard library (`str.strip`, `urllib.parse.urlsplit`) and of
the `tldextract` package is embedded for the URL shapes this pipeline
produces; each such definition carries a doc comment saying what it models.
-/

namespace UrlDetector

/-- Characters treated as whitespace by Python's `str.strip()` (ASCII part). -/
def pyIsSpace (c : Char) : Bool :=
  c = ' ' || c = '\t' || c = '\n' || c = '\r' || c = '\x0b' || c = '\x0c'

/-- Model of Python's `str.strip()`: drop whitespace from both ends. -/
def pyStrip (l : List Char) : List Char :=
  ((l.dropWhile pyIsSpace).reverse.dropWhile pyIsSpace).reverse

/-- Split a list at the first occurrence of `sep` (Python `s.split(sep, 1)`
when `sep` occurs; `none` when it does not). -/
def splitFirst (sep : Char) : List Char → Option (List Char × List Char)
  | [] => none
  | c :: cs =>
    if c = sep then some ([], cs)
    else (splitFirst sep cs).map (fun p => (c :: p.1, p.2))

/-- Model of Python's `s.split(sep)` for a single-character separator:
splitting the empty string yields `[""]`. -/
def splitAll (sep : Char) : List Char → List (List Char)
  | [] => [[]]
  | c :: cs =>
    match splitAll sep cs with
    | [] => [[]]
    | h :: t => if c = sep then [] :: h :: t else (c :: h) :: t

/-- Lower-case every character (Python `str.lower()` on ASCII data). -/
def toLowerL (l : List Char) : List Char := l.map Char.toLower

/-- Characters permitted in a URL scheme by `urllib.parse`
(letters, digits, `+`, `-`, `.`). -/
def isSchemeChar (c : Char) : Bool :=
  c.isAlpha || c.isDigit || c = '+' || c = '-' || c = '.'

/-- True when the list is nonempty and its head is a letter. -/
def headIsAlpha : List Char → Bool
  | [] => false
  | c :: _ => c.isAlpha

/-- A character that ends the netloc portion of a URL (`/`, `?` or `#`). -/
def isNetlocEnd (c : Char) : Bool :=
  c = '/' || c = '?' || c = '#'

/-- The five components produced by `urllib.parse.urlparse`
(the unused `params` component is omitted; no input in this development
contains `;`). -/
structure UrlParts where
  scheme : List Char
  netloc : List Char
  path : List Char
  query : List Char
  fragment : List Char
deriving DecidableEq, Repr

/-- Scheme extraction step of `urllib.parse.urlsplit`: if the text before the
first `:` is nonempty, starts with a letter and consists of scheme
characters, it is the (lower-cased) scheme; otherwise there is no scheme. -/
def schemeSplit (url : List Char) : List Char × List Char :=
  match splitFirst ':' url with
  | some (pre, post) =>
    if !pre.isEmpty && headIsAlpha pre && pre.all isSchemeChar then
      (toLowerL pre, post)
    else ([], url)
  | none => ([], url)

/-- Model of Python's `urllib.parse.urlparse` for the URL strings handled by
this pipeline: extract the scheme, then (after `//`) the netloc up to the
first `/`, `?` or `#`, then split off the fragment at the first `#` and the
query at the first `?`.  (The stdlib's removal of stray tab/CR/LF characters
and its `;params` splitting are not modelled; no claim below involves such
inputs.) -/
def urlparseL (url : List Char) : UrlParts :=
  let sp := schemeSplit url
  let scheme := sp.1
  let rest := sp.2
  let np :=
    if ('/' :: '/' :: []).isPrefixOf rest then
      let r := rest.drop 2
      (r.takeWhile (fun c => !isNetlocEnd c), r.dropWhile (fun c => !isNetlocEnd c))
    else ([], rest)
  let netloc := np.1
  let rest2 := np.2
  let fp :=
    match splitFirst '#' rest2 with
    | some (a, b) => (a, b)
    | none => (rest2, [])
  let qp :=
    match splitFirst '?' fp.1 with
    | some (a, b) => (a, b)
    | none => (fp.1, [])
  ⟨scheme, netloc, qp.1, qp.2, fp.2⟩

end UrlDetector

namespace Validators

open UrlDetector

/-- `normalize_url` from `backend/app/utils/validators.py`: strip whitespace
and prepend `http://` unless the string already starts with `http://` or
`https://`. -/
def normalize_url (url : List Char) : List Char :=
  if "http://".toList.isPrefixOf (pyStrip url) || "https://".toList.isPrefixOf (pyStrip url) then
    pyStrip url
  else "http://".toList ++ pyStrip url

/-- Label grammar of the domain regex in `is_valid_domain`:
`[a-zA-Z0-9](?:[a-zA-Z0-9-]{0,61}[a-zA-Z0-9])?` — length 1 to 63, first and
last characters alphanumeric, interior characters alphanumeric or `-`. -/
def labelOk : List Char → Bool
  | [] => false
  | c :: cs =>
    c.isAlphanum &&
      (match cs.reverse with
       | [] => true
       | e :: mid => cs.length ≤ 62 && e.isAlphanum &&
           mid.all (fun x => x.isAlphanum || x = '-'))

/-- The domain regex `^(?:LABEL\.)+[a-zA-Z]{2,}$` of `is_valid_domain`:
at least two dot-separated labels, all but the last matching `labelOk`, the
last consisting of at least two letters. -/
def domainRegexOk (d : List Char) : Bool :=
  let ls := splitAll '.' d
  decide (2 ≤ ls.length) && ls.dropLast.all labelOk &&
    (match ls.getLast? with
     | some t => decide (2 ≤ t.length) && t.all Char.isAlpha
     | none => false)

/-- The IPv4 regex `^(?:[0-9]{1,3}\.){3}[0-9]{1,3}$` used by both
`is_valid_domain` and `url_features.py`: four dot-separated groups of one to
three digits. -/
def ipRegexOk (d : List Char) : Bool :=
  match splitAll '.' d with
  | [a, b, c, e] =>
    [a, b, c, e].all (fun g => !g.isEmpty && g.length ≤ 3 && g.all Char.isDigit)
  | _ => false

/-- `is_valid_domain` from `validators.py`: strip a port suffix, require the
domain regex or the IPv4 regex, total length at most 253 and every
dot-separated label at most 63 characters. -/
def is_valid_domain (domain : List Char) : Bool :=
  let d := if domain.contains ':' then domain.takeWhile (· ≠ ':') else domain
  (domainRegexOk d || ipRegexOk d) &&
    decide (d.length ≤ 253) &&
    (splitAll '.' d).all (fun label => decide (label.length ≤ 63))

/-- `validate_url` from `validators.py`, returning the same
`(is_valid, normalized_url, error_message)` triple as the Python function.
The advisory `has_suspicious_patterns` check is omitted: the source computes
it and discards the result without affecting the return value. -/
def validate_url (url : List Char) : Bool × List Char × String :=
  if url = [] then (false, [], "URL cannot be empty")
  else if pyStrip url = [] then (false, [], "URL cannot be empty")
  else if ¬ ((urlparseL (normalize_url (pyStrip url))).scheme = "http".toList ∨
             (urlparseL (normalize_url (pyStrip url))).scheme = "https".toList) then
    (false, [], "URL must use http or https protocol")
  else if (urlparseL (normalize_url (pyStrip url))).netloc = [] then
    (false, [], "URL must contain a valid domain")
  else if ¬ is_valid_domain (urlparseL (normalize_url (pyStrip url))).netloc then
    (false, [], "Invalid domain format")
  else (true, normalize_url (pyStrip url), "")

end Validators

namespace UrlFeatures

open UrlDetector Validators

/-- Number of digit characters in a string
(`sum(c.isdigit() for c in url)` from `extract_character_features`). -/
def countDigits (l : List Char) : ℕ := (l.filter Char.isDigit).length

/-- Substring test: Python's `needle in hay` for strings. -/
def containsSub (needle : List Char) : List Char → Bool
  | [] => needle.isEmpty
  | c :: t => needle.isPrefixOf (c :: t) || containsSub needle t

/-- The fixed suspicious-keyword list of `extract_pattern_features`. -/
def suspicious_keywords : List (List Char) :=
  ["login".toList, "signin".toList, "account".toList, "update".toList,
   "confirm".toList, "verify".toList, "secure".toList, "banking".toList,
   "paypal".toList, "amazon".toList, "apple".toList, "microsoft".toList,
   "password".toList, "suspended".toList, "locked".toList, "unusual".toList]

/-- Modelled from the `tldextract` package (an external dependency, not part
of this repository): the subdomain component of the URL's host.  `tldextract`
reports an empty subdomain for IPv4 hosts, and for dotted hostnames whose
public suffix is a single label it reports everything before the last two
labels.  Userinfo and port are stripped from the netloc first.  Only the
subdomain component is consumed by the features embedded here. -/
def tldSubdomain (url : List Char) : List Char :=
  let n := (urlparseL url).netloc
  let n1 := if n.contains '@' then (n.reverse.takeWhile (· ≠ '@')).reverse else n
  let host := if n1.contains ':' then n1.takeWhile (· ≠ ':') else n1
  if ipRegexOk host then []
  else
    let ls := splitAll '.' host
    if ls.length ≤ 2 then [] else List.intercalate ['.'] (ls.dropLast.dropLast)

/-- Shannon entropy exactly as computed by `calculate_entropy` in
`extract_entropy_features`: 0 for the empty string, otherwise the negated
sum over the distinct characters (the keys of the frequency dictionary;
iteration order does not affect the sum) of `p * log2 p` with
`p = count / length`. -/
noncomputable def calc_entropy (l : List Char) : ℝ :=
  if l = [] then 0
  else
    - ((l.dedup.map (fun c =>
        ((l.count c : ℝ) / l.length) * Real.logb 2 ((l.count c : ℝ) / l.length))).sum)

/-- Base-2 Shannon entropy written as in the specification: the sum over the
set of characters occurring in the string of `-(p c * log2 (p c))` where
`p c` is the relative frequency of `c`. -/
noncomputable def shannonEntropy (l : List Char) : ℝ :=
  ∑ c in l.toFinset,
    -(((l.count c : ℝ) / l.length) * Real.logb 2 ((l.count c : ℝ) / l.length))

/-- The subset of the feature dictionary of `extract_all_features` that is
consumed by `analyze_url_features` and by the claims verified here.  The
remaining entries of the Python dictionary (plain length, character and
path-structure counts) are independent features that no verified claim
reads. -/
structure Features where
  url_length : ℕ
  digit_ratio : ℚ
  subdomain_count : ℕ
  is_ip_address : ℕ
  has_at_symbol : ℕ
  suspicious_keyword_count : ℕ
  has_https : ℕ
  url_entropy : ℝ
  domain_entropy : ℝ
  path_entropy : ℝ

/-- The feature extraction of `extract_all_features` restricted to the
fields of `Features`, following `url_features.py` line by line. -/
noncomputable def extract_features (url : List Char) : Features :=
  let parsed := urlparseL url
  { url_length := url.length
    digit_ratio := if 0 < url.length then (countDigits url : ℚ) / url.length else 0
    subdomain_count :=
      let sub := tldSubdomain url
      if sub = [] then 0 else (splitAll '.' sub).length
    is_ip_address := if ipRegexOk parsed.netloc then 1 else 0
    has_at_symbol := if url.contains '@' then 1 else 0
    suspicious_keyword_count :=
      (suspicious_keywords.filter (fun k => containsSub k (toLowerL url))).length
    has_https := if parsed.scheme = "https".toList then 1 else 0
    url_entropy := calc_entropy url
    domain_entropy := calc_entropy parsed.netloc
    path_entropy := if parsed.path ≠ [] then calc_entropy parsed.path else 0 }

/-- Result of `analyze_url_features`: the features, the clamped risk score
and the triggered factor strings.  (The `total_features` display count of
the Python dictionary is not modelled.) -/
structure FeatureAnalysis where
  features : Features
  feature_risk_score : ℚ
  risk_factors : List String

/-- `analyze_url_features` from `url_features.py`: accumulate the fixed
point increments and factor strings in source order, then clamp the score
at 100. -/
noncomputable def analyze_url_features (url : List Char) : FeatureAnalysis :=
  let f := extract_features url
  let a0 : ℚ × List String := (0, [])
  let a1 := if 75 < f.url_length then
      (a0.1 + 10, a0.2 ++ ["Unusually long URL"]) else a0
  let a2 := if f.is_ip_address ≠ 0 then
      (a1.1 + 20, a1.2 ++ ["Uses IP address instead of domain name"]) else a1
  let a3 := if f.has_at_symbol ≠ 0 then
      (a2.1 + 25, a2.2 ++ ["Contains @ symbol (possible redirect)"]) else a2
  let a4 := if 3 < f.subdomain_count then
      (a3.1 + 15, a3.2 ++ ["Excessive subdomains"]) else a3
  let a5 := if 2 < f.suspicious_keyword_count then
      (a4.1 + 15, a4.2 ++ ["Contains multiple suspicious keywords"]) else a4
  let a6 := if (3/10 : ℚ) < f.digit_ratio then
      (a5.1 + 10, a5.2 ++ ["High proportion of digits"]) else a5
  let a7 := if f.has_https = 0 then
      (a6.1 + 5, a6.2 ++ ["Not using HTTPS"]) else a6
  let a8 := if (5 : ℝ) < f.url_entropy then
      (a7.1 + 10, a7.2 ++ ["High entropy (random-looking URL)"]) else a7
  ⟨f, min a8.1 100, a8.2⟩

/-- Rounding a real number to two decimal places — the reading of the
specification's `rounded to 2 decimals` for the entropy features. -/
noncomputable def roundTo2R (x : ℝ) : ℝ := ((round (100 * x) : ℤ) : ℝ) / 100

/-- The input URL of scenario 2 in the specification. -/
def scenario2_url : List Char := "http://192.168.1.1/login/verify/secure".toList

end UrlFeatures

namespace ApiChecker

/-- The shape of one provider's result dictionary as consumed by
`_generate_summary`: whether the provider was reachable, and the value of
its optional `safe` key (`none` models a dictionary without that key, which
`dict.get("safe", True)` reads as safe). -/
structure ProviderResult where
  available : Bool
  safe : Option Bool
deriving DecidableEq

/-- The counting fields of the summary dictionary built by
`_generate_summary`.  (The display-only `threat_indicators` strings and the
`overall_assessment` tag are not consumed by any verified claim and are not
modelled.) -/
structure ApiSummary where
  total_apis_checked : ℕ
  apis_flagged_malicious : ℕ
  apis_marked_safe : ℕ
  apis_unavailable : ℕ
deriving DecidableEq

/-- Contribution of a single provider block of `_generate_summary` to the
four counters `(checked, flagged, safe, unavailable)`. -/
def tally (p : ProviderResult) : ℕ × ℕ × ℕ × ℕ :=
  if p.available then
    if p.safe.getD true then (1, 0, 1, 0) else (1, 1, 0, 0)
  else (0, 0, 0, 1)

/-- `_generate_summary` from `api_checker.py`: the three provider blocks
(Google Safe Browsing, VirusTotal, URLhaus) increment the shared counters
in sequence. -/
def generate_summary (gsb vt uh : ProviderResult) : ApiSummary :=
  let t1 := tally gsb
  let t2 := tally vt
  let t3 := tally uh
  { total_apis_checked := t1.1 + t2.1 + t3.1
    apis_flagged_malicious := t1.2.1 + t2.2.1 + t3.2.1
    apis_marked_safe := t1.2.2.1 + t2.2.2.1 + t3.2.2.1
    apis_unavailable := t1.2.2.2 + t2.2.2.2 + t3.2.2.2 }

end ApiChecker

namespace Scorer

open ApiChecker

/-- Python's `round()` to an integer: round half to even (banker's
rounding), as applied by `round(x, 2)` after scaling. -/
def pyRound (x : ℚ) : ℤ :=
  if x - ⌊x⌋ < 1/2 then ⌊x⌋
  else if 1/2 < x - ⌊x⌋ then ⌊x⌋ + 1
  else if ⌊x⌋ % 2 = 0 then ⌊x⌋ else ⌊x⌋ + 1

/-- Python's `round(x, 2)`: round to two decimal places. -/
def round2 (x : ℚ) : ℚ := (pyRound (x * 100) : ℚ) / 100

/-- `RiskScorer.SAFE_THRESHOLD`. -/
def SAFE_THRESHOLD : ℚ := 30

/-- `RiskScorer.SUSPICIOUS_THRESHOLD`. -/
def SUSPICIOUS_THRESHOLD : ℚ := 70

/-- `RiskScorer.WEIGHTS['api_score']`. -/
def W_api : ℚ := 70 / 100

/-- `RiskScorer.WEIGHTS['feature_score']`. -/
def W_feature : ℚ := 30 / 100

/-- `RiskScorer._calculate_api_score`, reading the two summary counters:
neutral 50 when no API was checked, otherwise the flagged ratio scaled to
0–100 with a `+10` boost per additional flagging provider, capped at 100. -/
def calculate_api_score (checked flagged : ℕ) : ℚ :=
  if checked = 0 then 50
  else
    let api_score := ((flagged : ℚ) / (checked : ℚ)) * 100
    if 1 < flagged then min (api_score + ((flagged : ℚ) - 1) * 10) 100
    else api_score

/-- `RiskScorer._determine_risk_level`. -/
def determine_risk_level (score : ℚ) : String :=
  if score ≤ SAFE_THRESHOLD then "SAFE"
  else if score ≤ SUSPICIOUS_THRESHOLD then "SUSPICIOUS"
  else "MALICIOUS"

/-- `RiskScorer._calculate_confidence`, reading the two summary counters. -/
def calculate_confidence (checked flagged : ℕ) : String :=
  if 2 ≤ checked ∧ (flagged = checked ∨ flagged = 0) then "HIGH"
  else if 2 ≤ checked then "MEDIUM"
  else if checked = 1 then "LOW"
  else "VERY_LOW"

/-- The fields of the dictionary returned by
`RiskScorer.calculate_risk_score`.  (The threat-indicator and
recommendation string lists are display-only concatenations not consumed by
any verified claim and are not modelled.) -/
structure RiskAssessment where
  final_score : ℚ
  risk_level : String
  api_score : ℚ
  feature_score : ℚ
  api_contribution : ℚ
  feature_contribution : ℚ
  confidence : String

/-- `RiskScorer.calculate_risk_score`: weighted fusion of the API score
and the feature risk score.  The risk level is computed from the exact
(unrounded) weighted sum, the reported numeric fields are rounded to two
decimal places. -/
def calculate_risk_score (s : ApiSummary) (feature_risk_score : ℚ) : RiskAssessment :=
  let api_score := calculate_api_score s.total_apis_checked s.apis_flagged_malicious
  let final_score := api_score * W_api + feature_risk_score * W_feature
  { final_score := round2 final_score
    risk_level := determine_risk_level final_score
    api_score := round2 api_score
    feature_score := round2 feature_risk_score
    api_contribution := round2 (api_score * W_api)
    feature_contribution := round2 (feature_risk_score * W_feature)
    confidence := calculate_confidence s.total_apis_checked s.apis_flagged_malicious }

end Scorer

namespace Pipeline

open UrlDetector Validators UrlFeatures ApiChecker Scorer

/-- The `/scan` entry point of `backend/app/main.py`.  The three provider
outcomes stand for the network responses gathered by
`APIChecker.check_all_apis`; they are a parameter because the embedding is
pure.  On validation failure the endpoint returns only the error message:
the aggregator, the feature extractor and the fusion engine appear only in
the success branch. -/
noncomputable def scan (gsb vt uh : ProviderResult) (raw : List Char) :
    Except String RiskAssessment :=
  let v := validate_url raw
  if v.1 then
    let summary := generate_summary gsb vt uh
    let featureAnalysis := analyze_url_features v.2.1
    Except.ok (calculate_risk_score summary featureAnalysis.feature_risk_score)
  else Except.error v.2.2

end Pipeline
namespace Scorer

theorem abs_pyRound_sub (x : ℚ) : |(pyRound x : ℚ) - x| ≤ 1/2 := by
  unfold pyRound
  have h1 : (⌊x⌋ : ℚ) ≤ x := Int.floor_le x
  have h2 : x < ⌊x⌋ + 1 := Int.lt_floor_add_one x
  split_ifs with hf hg he <;> rw [abs_sub_le_iff] <;> constructor <;> push_cast <;> linarith

theorem abs_round2_sub (x : ℚ) : |round2 x - x| ≤ 1/200 := by
  have h := abs_pyRound_sub (x * 100)
  unfold round2
  have : (pyRound (x * 100) : ℚ) / 100 - x = ((pyRound (x * 100) : ℚ) - x * 100) / 100 := by
    ring
  rw [this, abs_div]
  rw [abs_of_pos (by norm_num : (0:ℚ) < 100)]
  linarith [h]

theorem pyRound_nonneg {x : ℚ} (hx : 0 ≤ x) : 0 ≤ pyRound x := by
  have hf : (0 : ℤ) ≤ ⌊x⌋ := Int.floor_nonneg.mpr hx
  unfold pyRound
  split_ifs <;> omega

theorem pyRound_le {x : ℚ} {n : ℤ} (hx : x ≤ (n : ℚ)) : pyRound x ≤ n := by
  have hf : ⌊x⌋ ≤ n := by
    have := Int.floor_mono hx
    rwa [Int.floor_intCast] at this
  have h1 : (⌊x⌋ : ℚ) ≤ x := Int.floor_le x
  unfold pyRound
  split_ifs with hlt hgt he
  · exact hf
  · have : (⌊x⌋ : ℚ) < n := by linarith
    have : ⌊x⌋ < n := by exact_mod_cast this
    omega
  · exact hf
  · have : (⌊x⌋ : ℚ) < n := by linarith
    have : ⌊x⌋ < n := by exact_mod_cast this
    omega

end Scorer
namespace Scorer

theorem round2_nonneg {x : ℚ} (hx : 0 ≤ x) : 0 ≤ round2 x := by
  unfold round2
  have : 0 ≤ pyRound (x * 100) := pyRound_nonneg (by linarith)
  positivity

theorem round2_le_100 {x : ℚ} (hx : x ≤ 100) : round2 x ≤ 100 := by
  unfold round2
  have h : pyRound (x * 100) ≤ (10000 : ℤ) := pyRound_le (by push_cast; linarith)
  rw [div_le_iff (by norm_num : (0:ℚ) < 100)]
  calc (pyRound (x * 100) : ℚ) ≤ (10000 : ℤ) := by exact_mod_cast h
    _ = 100 * 100 := by norm_num

theorem calculate_api_score_nonneg (checked flagged : ℕ) :
    0 ≤ calculate_api_score checked flagged := by
  unfold calculate_api_score
  split_ifs with h0 h1
  · norm_num
  · apply le_min _ (by norm_num)
    have : (0:ℚ) ≤ (flagged : ℚ) / (checked : ℚ) * 100 := by positivity
    have h1' : (1:ℚ) ≤ (flagged : ℚ) := by exact_mod_cast h1.le
    linarith
  · positivity

theorem calculate_api_score_le_100 {checked flagged : ℕ} (h : flagged ≤ checked) :
    calculate_api_score checked flagged ≤ 100 := by
  unfold calculate_api_score
  split_ifs with h0 h1
  · norm_num
  · exact min_le_right _ _
  · have hc : (0:ℚ) < (checked : ℚ) := by
      have : 0 < checked := Nat.pos_of_ne_zero h0
      exact_mod_cast this
    rw [div_mul_eq_mul_div, div_le_iff hc]
    have : (flagged : ℚ) ≤ (checked : ℚ) := by exact_mod_cast h
    linarith

end Scorer
namespace Scorer

/-- C1: for every pair of inputs (API summary, feature results), the
assessment returned by `calculate_risk_score` satisfies
`final_score = 0.7 * api_score + 0.3 * feature_score` within rounding
tolerance: the reported `final_score`, `api_score` and `feature_score` are
each rounded to 2 decimals, and the reported final score differs from the
weighted sum of the reported component scores by at most 1/100. -/
theorem claim_C1_weighted_fusion (s : ApiChecker.ApiSummary) (feature_risk_score : ℚ) :
    |(calculate_risk_score s feature_risk_score).final_score -
      ((7/10) * (calculate_risk_score s feature_risk_score).api_score +
       (3/10) * (calculate_risk_score s feature_risk_score).feature_score)| ≤ 1/100 := by
  simp only [calculate_risk_score]
  set A := calculate_api_score s.total_apis_checked s.apis_flagged_malicious with hA
  have h1 := abs_round2_sub (A * W_api + feature_risk_score * W_feature)
  have h2 := abs_round2_sub A
  have h3 := abs_round2_sub feature_risk_score
  have e : round2 (A * W_api + feature_risk_score * W_feature) -
      ((7/10) * round2 A + (3/10) * round2 feature_risk_score)
      = (round2 (A * W_api + feature_risk_score * W_feature)
          - (A * W_api + feature_risk_score * W_feature))
        + (7/10) * (A - round2 A)
        + (3/10) * (feature_risk_score - round2 feature_risk_score) := by
    simp only [W_api, W_feature]; ring
  rw [e]
  have habs : ∀ a b c : ℚ, |a + b + c| ≤ |a| + |b| + |c| := fun a b c =>
    (abs_add _ _).trans (add_le_add_right (abs_add a b) _)
  refine (habs _ _ _).trans ?_
  have b1 : |(7/10 : ℚ) * (A - round2 A)| ≤ 7/2000 := by
    rw [abs_mul, abs_of_pos (by norm_num : (0:ℚ) < 7/10), abs_sub_comm]
    nlinarith [h2]
  have b2 : |(3/10 : ℚ) * (feature_risk_score - round2 feature_risk_score)| ≤ 3/2000 := by
    rw [abs_mul, abs_of_pos (by norm_num : (0:ℚ) < 3/10), abs_sub_comm]
    nlinarith [h3]
  linarith

/-- C3: for every aggregate summary, `_calculate_api_score` returns the
neutral score 50 when no API was checked, the flagged ratio scaled to 100
when at most one provider flagged, and the boosted, capped score when more
than one flagged; in particular two flags out of two checked give 100. -/
theorem claim_C3_api_score_formula (checked flagged : ℕ) :
    (checked = 0 → calculate_api_score checked flagged = 50) ∧
    (checked ≠ 0 → flagged ≤ 1 →
      calculate_api_score checked flagged = ((flagged : ℚ) / (checked : ℚ)) * 100) ∧
    (checked ≠ 0 → 1 < flagged →
      calculate_api_score checked flagged =
        min (((flagged : ℚ) / (checked : ℚ)) * 100 + ((flagged : ℚ) - 1) * 10) 100) ∧
    calculate_api_score 2 2 = 100 := by
  refine ⟨?_, ?_, ?_, ?_⟩
  · intro h; simp [calculate_api_score, h]
  · intro h hf
    simp only [calculate_api_score, if_neg h]
    rw [if_neg (by omega : ¬ 1 < flagged)]
  · intro h hf
    simp only [calculate_api_score, if_neg h]
    rw [if_pos hf]
  · norm_num [calculate_api_score, min_def]

/-- Witness for C3 at concrete inputs: no API checked, one flag out of
three, and two flags out of three. -/
theorem claim_C3_api_score_formula_witness :
    calculate_api_score 0 5 = 50 ∧
    calculate_api_score 3 1 = ((1 : ℚ) / 3) * 100 ∧
    calculate_api_score 3 2 = min (((2 : ℚ) / 3) * 100 + ((2 : ℚ) - 1) * 10) 100 := by
  refine ⟨(claim_C3_api_score_formula 0 5).1 rfl, ?_, ?_⟩
  · have h := (claim_C3_api_score_formula 3 1).2.1 (by norm_num) (by norm_num)
    simpa using h
  · have h := (claim_C3_api_score_formula 3 2).2.2.1 (by norm_num) (by norm_num)
    simpa using h

/-- C8: with the number of checked providers fixed and at least 1, the API
score is monotone in the number of flagging providers. -/
theorem claim_C8_api_score_monotone (checked f1 f2 : ℕ) (hc : 1 ≤ checked)
    (h12 : f1 ≤ f2) (h2c : f2 ≤ checked) :
    calculate_api_score checked f1 ≤ calculate_api_score checked f2 := by
  have hc0 : checked ≠ 0 := by omega
  have hcq : (0:ℚ) < (checked : ℚ) := by exact_mod_cast Nat.pos_of_ne_zero hc0
  have h12q : (f1 : ℚ) ≤ (f2 : ℚ) := by exact_mod_cast h12
  have hratio : ((f1:ℚ)/(checked:ℚ))*100 ≤ ((f2:ℚ)/(checked:ℚ))*100 := by
    gcongr
  simp only [calculate_api_score, if_neg hc0]
  split_ifs with hf1 hf2 hf2'
  · refine min_le_min ?_ le_rfl
    have : ((f1:ℚ) - 1) * 10 ≤ ((f2:ℚ) - 1) * 10 := by linarith
    linarith
  · omega
  · refine le_min ?_ ?_
    · have hpos : (0:ℚ) < (f2:ℚ) - 1 := by
        have : (1:ℚ) < (f2:ℚ) := by exact_mod_cast hf2'
        linarith
      linarith
    · have hle : (f1:ℚ)/(checked:ℚ) ≤ 1 := by
        rw [div_le_one hcq]
        exact_mod_cast le_trans h12 h2c
      linarith
  · exact hratio

/-- Witness for C8: one flag versus two flags out of two checked. -/
theorem claim_C8_api_score_monotone_witness :
    calculate_api_score 2 1 ≤ calculate_api_score 2 2 :=
  claim_C8_api_score_monotone 2 1 2 (by norm_num) (by norm_num) (by norm_num)

end Scorer
namespace Scorer

theorem determine_risk_level_iff (x : ℚ) :
    (determine_risk_level x = "SAFE" ↔ x ≤ 30) ∧
    (determine_risk_level x = "SUSPICIOUS" ↔ 30 < x ∧ x ≤ 70) ∧
    (determine_risk_level x = "MALICIOUS" ↔ 70 < x) := by
  unfold determine_risk_level SAFE_THRESHOLD SUSPICIOUS_THRESHOLD
  split_ifs with ha hb
  · exact ⟨iff_of_true rfl ha,
      iff_of_false (by decide) (by rintro ⟨h, _⟩; linarith),
      iff_of_false (by decide) (by intro h; linarith)⟩
  · exact ⟨iff_of_false (by decide) ha,
      iff_of_true rfl ⟨by linarith [not_le.mp ha], hb⟩,
      iff_of_false (by decide) (by intro h; linarith)⟩
  · exact ⟨iff_of_false (by decide) ha,
      iff_of_false (by decide) (by rintro ⟨_, h⟩; exact hb h),
      iff_of_true rfl (by push_neg at hb; linarith)⟩

/-- C2: whenever the flagged count does not exceed the checked count and the
feature score lies in [0,100], the fused final score lies in [0,100] and the
risk level matches the fixed thresholds on the fused weighted sum: SAFE iff
it is at most 30, SUSPICIOUS iff it lies in (30, 70], MALICIOUS iff it
exceeds 70. -/
theorem claim_C2_score_bounds_and_levels (s : ApiChecker.ApiSummary) (n : ℚ)
    (hfl : s.apis_flagged_malicious ≤ s.total_apis_checked)
    (h0 : 0 ≤ n) (h1 : n ≤ 100) :
    (0 ≤ (calculate_risk_score s n).final_score ∧
      (calculate_risk_score s n).final_score ≤ 100) ∧
    ((calculate_risk_score s n).risk_level = "SAFE" ↔
      calculate_api_score s.total_apis_checked s.apis_flagged_malicious * W_api
        + n * W_feature ≤ 30) ∧
    ((calculate_risk_score s n).risk_level = "SUSPICIOUS" ↔
      30 < calculate_api_score s.total_apis_checked s.apis_flagged_malicious * W_api
        + n * W_feature ∧
      calculate_api_score s.total_apis_checked s.apis_flagged_malicious * W_api
        + n * W_feature ≤ 70) ∧
    ((calculate_risk_score s n).risk_level = "MALICIOUS" ↔
      70 < calculate_api_score s.total_apis_checked s.apis_flagged_malicious * W_api
        + n * W_feature) := by
  have hA0 := calculate_api_score_nonneg s.total_apis_checked s.apis_flagged_malicious
  have hA1 := calculate_api_score_le_100 hfl
  set A := calculate_api_score s.total_apis_checked s.apis_flagged_malicious with hA
  have hF0 : 0 ≤ A * W_api + n * W_feature := by
    simp only [W_api, W_feature]; linarith
  have hF1 : A * W_api + n * W_feature ≤ 100 := by
    simp only [W_api, W_feature]; linarith
  obtain ⟨l1, l2, l3⟩ := determine_risk_level_iff (A * W_api + n * W_feature)
  refine ⟨⟨?_, ?_⟩, ?_, ?_, ?_⟩
  · exact round2_nonneg hF0
  · exact round2_le_100 hF1
  · exact l1
  · exact l2
  · exact l3

/-- Witness for C2: one provider checked and flagged, feature score 0; the
fused score is exactly 70 and the level is SUSPICIOUS. -/
theorem claim_C2_score_bounds_and_levels_witness :
    (0 ≤ (calculate_risk_score ⟨1, 1, 0, 0⟩ 0).final_score ∧
      (calculate_risk_score ⟨1, 1, 0, 0⟩ 0).final_score ≤ 100) ∧
    ((calculate_risk_score ⟨1, 1, 0, 0⟩ 0).risk_level = "SAFE" ↔
      calculate_api_score 1 1 * W_api + 0 * W_feature ≤ 30) ∧
    ((calculate_risk_score ⟨1, 1, 0, 0⟩ 0).risk_level = "SUSPICIOUS" ↔
      30 < calculate_api_score 1 1 * W_api + 0 * W_feature ∧
      calculate_api_score 1 1 * W_api + 0 * W_feature ≤ 70) ∧
    ((calculate_risk_score ⟨1, 1, 0, 0⟩ 0).risk_level = "MALICIOUS" ↔
      70 < calculate_api_score 1 1 * W_api + 0 * W_feature) :=
  claim_C2_score_bounds_and_levels ⟨1, 1, 0, 0⟩ 0 (by norm_num) (by norm_num) (by norm_num)

end Scorer

namespace ApiChecker

/-- C4: for every combination of the three per-provider results, the summary
produced by `_generate_summary` satisfies
`total_apis_checked = apis_flagged_malicious + apis_marked_safe`;
unavailable providers are counted in neither term. -/
theorem claim_C4_summary_invariant (gsb vt uh : ProviderResult) :
    (generate_summary gsb vt uh).total_apis_checked =
      (generate_summary gsb vt uh).apis_flagged_malicious +
        (generate_summary gsb vt uh).apis_marked_safe ∧
    (generate_summary gsb vt uh).total_apis_checked +
        (generate_summary gsb vt uh).apis_unavailable = 3 := by
  have key : ∀ p : ProviderResult,
      (tally p).1 = (tally p).2.1 + (tally p).2.2.1 ∧
      (tally p).1 + (tally p).2.2.2 = 1 := by
    rintro ⟨_ | _, _ | (_ | _)⟩ <;> simp [tally]
  obtain ⟨k1, k1u⟩ := key gsb
  obtain ⟨k2, k2u⟩ := key vt
  obtain ⟨k3, k3u⟩ := key uh
  simp only [generate_summary]
  omega

end ApiChecker
namespace Validators

open UrlDetector

theorem scheme_of_http (r : List Char) :
    (urlparseL ("http://".toList ++ r)).scheme = "http".toList := rfl

theorem scheme_of_https (r : List Char) :
    (urlparseL ("https://".toList ++ r)).scheme = "https".toList := rfl

theorem normalize_url_has_scheme_prefix (u : List Char) :
    "http://".toList.isPrefixOf (normalize_url u) = true ∨
    "https://".toList.isPrefixOf (normalize_url u) = true := by
  unfold normalize_url
  split_ifs with h
  · exact (Bool.or_eq_true _ _).mp h
  · exact Or.inl ( List.isPrefixOf_iff_prefix.mpr (List.prefix_append _ _))

theorem scheme_http_or_https (u : List Char) :
    (urlparseL (normalize_url u)).scheme = "http".toList ∨
    (urlparseL (normalize_url u)).scheme = "https".toList := by
  rcases normalize_url_has_scheme_prefix u with h | h
  · obtain ⟨t, ht⟩ := List.isPrefixOf_iff_prefix.mp h
    exact Or.inl (by rw [← ht]; exact scheme_of_http t)
  · obtain ⟨t, ht⟩ := List.isPrefixOf_iff_prefix.mp h
    exact Or.inr (by rw [← ht]; exact scheme_of_https t)

/-- C10: the normalization step prepends `http://` whenever the input does
not already start with `http://` or `https://`, so the scheme parsed inside
`validate_url` is always `http` or `https` and the `UnsupportedScheme`
branch is unreachable: `validate_url` never returns the error
`URL must use http or https protocol`, for any input. -/
theorem claim_C10_scheme_branch_unreachable (s : List Char) :
    ((urlparseL (normalize_url s)).scheme = "http".toList ∨
     (urlparseL (normalize_url s)).scheme = "https".toList) ∧
    (validate_url s).2.2 ≠ "URL must use http or https protocol" := by
  refine ⟨scheme_http_or_https s, ?_⟩
  have hs := scheme_http_or_https (pyStrip s)
  unfold validate_url
  by_cases h1 : s = []
  · rw [if_pos h1]; decide
  rw [if_neg h1]
  by_cases h2 : pyStrip s = []
  · rw [if_pos h2]; decide
  rw [if_neg h2, if_neg (not_not_intro hs)]
  split_ifs with h4 h5 <;>
    first
      | decide
      | exact (by decide : ("" : String) ≠ "URL must use http or https protocol")

/-- C7: for every input that strips to the empty string, validation fails
with the empty-input error, and the scan entry point returns only that
error — for every combination of provider outcomes, no score or partial
result is produced. -/
theorem claim_C7_empty_input (s : List Char) (h : pyStrip s = []) :
    validate_url s = (false, [], "URL cannot be empty") ∧
    ∀ gsb vt uh : ApiChecker.ProviderResult,
      Pipeline.scan gsb vt uh s = Except.error "URL cannot be empty" := by
  have hv : validate_url s = (false, [], "URL cannot be empty") := by
    unfold validate_url
    by_cases h0 : s = []
    · rw [if_pos h0]
    · rw [if_neg h0, if_pos h]
  refine ⟨hv, fun gsb vt uh => ?_⟩
  unfold Pipeline.scan
  rw [hv]
  rfl

/-- Witness for C7 at the three-space input. -/
theorem claim_C7_empty_input_witness :
    validate_url "   ".toList = (false, [], "URL cannot be empty") ∧
    Pipeline.scan ⟨false, none⟩ ⟨false, none⟩ ⟨false, none⟩ "   ".toList
      = Except.error "URL cannot be empty" := by
  have h := claim_C7_empty_input "   ".toList (by decide)
  exact ⟨h.1, h.2 _ _ _⟩

end Validators
namespace Validators

open UrlDetector

/-- Counterexample to C6: on the accepted input `http://EXAMPLE.COM/Path`,
`validate_url` succeeds and returns the URL verbatim; its host is not
lower-cased. -/
theorem claim_C6_counterexample :
    validate_url "http://EXAMPLE.COM/Path".toList
      = (true, "http://EXAMPLE.COM/Path".toList, "") ∧
    (urlparseL "http://EXAMPLE.COM/Path".toList).netloc ≠
      toLowerL (urlparseL "http://EXAMPLE.COM/Path".toList).netloc :=
  ⟨by decide, by decide⟩

/-- C6 (amended): for every raw input accepted by `validate_url`, the
canonical URL it returns is the whitespace-stripped input with `http://`
prepended when no scheme prefix is present, with character case preserved
throughout — neither the scheme nor the host is lower-cased.  (The
lower-casing described by the claim lives in the separate `clean_url`
helper, which `validate_url` never calls.) -/
theorem claim_C6_amended_case_preserved (s n : List Char) (e : String)
    (h : validate_url s = (true, n, e)) : n = normalize_url (pyStrip s) := by
  unfold validate_url at h
  split_ifs at h <;> simp only [Prod.mk.injEq] at h <;>
    first
      | exact absurd h.1 (by decide)
      | exact h.2.1.symm

/-- Witness for the amended C6 at the counterexample input. -/
theorem claim_C6_amended_case_preserved_witness :
    ("http://EXAMPLE.COM/Path".toList : List Char)
      = normalize_url (pyStrip "http://EXAMPLE.COM/Path".toList) :=
  claim_C6_amended_case_preserved "http://EXAMPLE.COM/Path".toList
    "http://EXAMPLE.COM/Path".toList "" (by decide)

end Validators
namespace UrlFeatures

open UrlDetector

theorem calc_entropy_eq_shannon (l : List Char) :
    calc_entropy l = shannonEntropy l := by
  unfold calc_entropy shannonEntropy
  split_ifs with h
  · subst h; simp
  · have hd : l.dedup.toFinset = l.toFinset := by
      ext a; simp [List.mem_dedup]
    rw [← hd, Finset.sum_neg_distrib, List.sum_toFinset _ (List.nodup_dedup l)]

theorem shannonEntropy_nil : shannonEntropy ([] : List Char) = 0 := by
  simp [shannonEntropy]

theorem shannonEntropy_replicate (n : ℕ) (c : Char) :
    shannonEntropy (List.replicate (n + 1) c) = 0 := by
  unfold shannonEntropy
  rw [List.toFinset_replicate_of_ne_zero (Nat.succ_ne_zero n), Finset.sum_singleton]
  rw [List.count_replicate_self, List.length_replicate]
  rw [div_self (by exact_mod_cast Nat.succ_ne_zero n : ((n + 1 : ℕ) : ℝ) ≠ 0)]
  rw [Real.logb_one]
  ring

theorem shannon_abc : shannonEntropy "abc".toList = Real.logb 2 3 := by
  have hfin : "abc".toList.toFinset = {'a', 'b', 'c'} := by decide
  unfold shannonEntropy
  rw [hfin]
  have hl : "abc".toList.length = 3 := by decide
  have ha : "abc".toList.count 'a' = 1 := by decide
  have hb : "abc".toList.count 'b' = 1 := by decide
  have hc : "abc".toList.count 'c' = 1 := by decide
  rw [Finset.sum_insert (by decide), Finset.sum_insert (by decide), Finset.sum_singleton]
  rw [hl, ha, hb, hc]
  push_cast
  rw [show (1 : ℝ) / 3 = ((3 : ℝ))⁻¹ by norm_num, Real.logb_inv]
  ring

end UrlFeatures
namespace UrlFeatures

open UrlDetector

/-- Counterexample to C5: on the string `abc`, the stored `url_entropy`
feature is the exact value `log₂ 3`, which is not equal to any value rounded
to two decimals — in particular not to its own two-decimal rounding.  The
code stores unrounded entropies. -/
theorem claim_C5_counterexample :
    (extract_features "abc".toList).url_entropy
      ≠ roundTo2R (shannonEntropy "abc".toList) := by
  have he : (extract_features "abc".toList).url_entropy = Real.logb 2 3 := by
    show calc_entropy "abc".toList = _
    rw [calc_entropy_eq_shannon, shannon_abc]
  rw [he, shannon_abc]
  unfold roundTo2R
  intro hEq
  set m : ℤ := round ((100 : ℝ) * Real.logb 2 3) with hm
  have hge : (1 : ℝ) ≤ Real.logb 2 3 := by
    rw [show (1 : ℝ) = Real.logb 2 2 from (Real.logb_self_eq_one (by norm_num)).symm]
    exact Real.logb_le_logb_of_le (by norm_num) (by norm_num) (by norm_num)
  have hm100 : 100 ≤ m := by
    have h100 : (100 : ℝ) ≤ 100 * Real.logb 2 3 := by linarith
    have hfl : (100 : ℤ) ≤ ⌊(100 : ℝ) * Real.logb 2 3⌋ := by
      apply Int.le_floor.mpr; push_cast; linarith
    have hrd : ⌊(100 : ℝ) * Real.logb 2 3⌋ ≤ m := by
      rw [hm, round_eq]; apply Int.floor_mono; linarith
    omega
  have h2 : (2 : ℝ) ^ Real.logb 2 3 = 3 :=
    Real.rpow_logb (by norm_num) (by norm_num) (by norm_num)
  rw [hEq] at h2
  have h3 : ((2 : ℝ) ^ ((m : ℝ) / 100)) ^ (100 : ℕ) = (3 : ℝ) ^ (100 : ℕ) := by
    rw [h2]
  rw [← Real.rpow_natCast ((2 : ℝ) ^ ((m : ℝ) / 100)) 100,
      ← Real.rpow_mul (by norm_num : (0 : ℝ) ≤ 2)] at h3
  push_cast at h3
  rw [div_mul_cancel₀ (m : ℝ) (by norm_num : (100 : ℝ) ≠ 0)] at h3
  obtain ⟨k, hk⟩ : ∃ k : ℕ, m = (k : ℤ) :=
    ⟨m.toNat, (Int.toNat_of_nonneg (by omega)).symm⟩
  rw [hk, Int.cast_natCast, Real.rpow_natCast] at h3
  have hnat : (2 : ℕ) ^ k = 3 ^ 100 := by exact_mod_cast h3
  have hk1 : k ≠ 0 := by omega
  have hdvd : 2 ∣ 3 ^ 100 := hnat ▸ dvd_pow_self 2 hk1
  have h23 := Nat.Prime.dvd_of_dvd_pow Nat.prime_two hdvd
  norm_num at h23

/-- C5 (amended): the three entropy features are the exact (unrounded)
base-2 Shannon entropies of the full URL string, the host substring and the
path substring respectively — rounding to two decimals happens only when
`url_entropy` is later formatted for display — and the entropy of the empty
string or of any string of one repeated character is exactly 0. -/
theorem claim_C5_amended_exact_entropies (l : List Char) :
    (extract_features l).url_entropy = shannonEntropy l ∧
    (extract_features l).domain_entropy = shannonEntropy (urlparseL l).netloc ∧
    (extract_features l).path_entropy = shannonEntropy (urlparseL l).path ∧
    shannonEntropy ([] : List Char) = 0 ∧
    (∀ (n : ℕ) (c : Char), shannonEntropy (List.replicate (n + 1) c) = 0) := by
  refine ⟨?_, ?_, ?_, shannonEntropy_nil, shannonEntropy_replicate⟩
  · show calc_entropy l = _
    exact calc_entropy_eq_shannon l
  · show calc_entropy (urlparseL l).netloc = _
    exact calc_entropy_eq_shannon _
  · show (if (urlparseL l).path ≠ [] then calc_entropy (urlparseL l).path else 0) = _
    split_ifs with h
    · exact calc_entropy_eq_shannon _
    · rw [not_ne_iff.mp h, shannonEntropy_nil]

end UrlFeatures
namespace UrlFeatures

open UrlDetector

theorem scenario2_cases :
    (analyze_url_features scenario2_url).features = extract_features scenario2_url ∧
    (((analyze_url_features scenario2_url).feature_risk_score = 40 ∧
      (analyze_url_features scenario2_url).risk_factors =
        ["Uses IP address instead of domain name",
         "Contains multiple suspicious keywords", "Not using HTTPS"]) ∨
     ((analyze_url_features scenario2_url).feature_risk_score = 50 ∧
      (analyze_url_features scenario2_url).risk_factors =
        ["Uses IP address instead of domain name",
         "Contains multiple suspicious keywords", "Not using HTTPS",
         "High entropy (random-looking URL)"])) := by
  have h_len : (extract_features scenario2_url).url_length = 38 := by decide
  have h_ip : (extract_features scenario2_url).is_ip_address = 1 := by decide
  have h_at : (extract_features scenario2_url).has_at_symbol = 0 := by decide
  have h_sub : (extract_features scenario2_url).subdomain_count = 0 := by decide
  have h_kw : (extract_features scenario2_url).suspicious_keyword_count = 3 := by decide
  have h_https : (extract_features scenario2_url).has_https = 0 := by decide
  have h_ratio : ¬ ((3/10 : ℚ) < (extract_features scenario2_url).digit_ratio) := by
    have hr : (extract_features scenario2_url).digit_ratio
        = (countDigits scenario2_url : ℚ) / (scenario2_url.length : ℚ) := rfl
    rw [hr, show countDigits scenario2_url = 8 from by decide,
      show scenario2_url.length = 38 from by decide]
    norm_num
  refine ⟨rfl, ?_⟩
  by_cases h5 : (5 : ℝ) < (extract_features scenario2_url).url_entropy
  · right
    constructor <;>
      simp [analyze_url_features, h_len, h_ip, h_at, h_sub, h_kw, h_https,
        if_neg h_ratio, if_pos h5] <;> norm_num
  · left
    constructor <;>
      simp [analyze_url_features, h_len, h_ip, h_at, h_sub, h_kw, h_https,
        if_neg h_ratio, if_neg h5] <;> norm_num

end UrlFeatures
namespace UrlFeatures

open UrlDetector

/-- Counterexample to C9: for the scenario-2 input, when all three providers
respond and none flags the URL (summary: 3 checked, 0 flagged), the
resulting risk level is SAFE — not at least SUSPICIOUS as claimed
unconditionally. -/
theorem claim_C9_counterexample :
    (Scorer.calculate_risk_score ⟨3, 0, 3, 0⟩
      (analyze_url_features scenario2_url).feature_risk_score).risk_level = "SAFE" := by
  rcases scenario2_cases.2 with ⟨hs, _⟩ | ⟨hs, _⟩ <;>
    rw [Scorer.calculate_risk_score, hs] <;>
    norm_num [Scorer.calculate_api_score, Scorer.determine_risk_level,
      Scorer.SAFE_THRESHOLD, Scorer.SUSPICIOUS_THRESHOLD, Scorer.W_api, Scorer.W_feature]

/-- C9 (amended): for the input `http://192.168.1.1/login/verify/secure`
the extracted features satisfy `is_ip_address = 1` and
`suspicious_keyword_count ≥ 3`, the feature risk score includes at minimum
the +20 (IP address) and +15 (multiple suspicious keywords) increments —
both factor strings are reported and the score is at least 35 — and the
resulting risk level is SUSPICIOUS (hence at least SUSPICIOUS) whenever no
provider results are available, so that the neutral API score 50 applies;
with providers answering and none flagging, the level is SAFE instead. -/
theorem claim_C9_amended_scenario2 :
    (analyze_url_features scenario2_url).features.is_ip_address = 1 ∧
    3 ≤ (analyze_url_features scenario2_url).features.suspicious_keyword_count ∧
    35 ≤ (analyze_url_features scenario2_url).feature_risk_score ∧
    "Uses IP address instead of domain name"
      ∈ (analyze_url_features scenario2_url).risk_factors ∧
    "Contains multiple suspicious keywords"
      ∈ (analyze_url_features scenario2_url).risk_factors ∧
    (Scorer.calculate_risk_score ⟨0, 0, 0, 3⟩
      (analyze_url_features scenario2_url).feature_risk_score).risk_level
      = "SUSPICIOUS" := by
  obtain ⟨hf, hcases⟩ := scenario2_cases
  refine ⟨by rw [hf]; decide, by rw [hf]; decide, ?_, ?_, ?_, ?_⟩
  · rcases hcases with ⟨hs, _⟩ | ⟨hs, _⟩ <;> rw [hs] <;> norm_num
  · rcases hcases with ⟨_, hl⟩ | ⟨_, hl⟩ <;> rw [hl] <;> simp
  · rcases hcases with ⟨_, hl⟩ | ⟨_, hl⟩ <;> rw [hl] <;> simp
  · rcases hcases with ⟨hs, _⟩ | ⟨hs, _⟩ <;>
      rw [Scorer.calculate_risk_score, hs] <;>
      norm_num [Scorer.calculate_api_score, Scorer.determine_risk_level,
        Scorer.SAFE_THRESHOLD, Scorer.SUSPICIOUS_THRESHOLD, Scorer.W_api, Scorer.W_feature]

end UrlFeatures
